import Mathlib

/-!
Verification of the mapmap tile-proxy core: a shallow embedding of the
coordinate-transformation engine (coordinates.py), the WMTS capabilities
parser (wmts_capabilities.py), the tile-matrix-limit table
(tile_matrix_limits.py), the upstream tile fetcher (wmts_client.py) and the
tile cache used by the serving path (app.py), together with theorems about
the behaviour of those operations.

Python strings are modelled as `List Char`, Python `int` as `Int`, Python
floats as real numbers (configuration literals, which are exact decimals,
as rationals), raised exceptions as `Except`/`Option` results, and the
external projection library as an opaque function parameter.
-/

namespace MapMap

/-- Characters of a string literal (convenience for writing Python string
constants as `List Char`). -/
def chars (s : String) : List Char := s.toList

/-- Value of a decimal digit character, `none` for any other character
(models the per-character acceptance of Python `int(...)`). -/
def digitVal? (c : Char) : Option Nat :=
  if '0' ≤ c ∧ c ≤ '9' then some (c.toNat - ('0').toNat) else none

/-- Fold a list of characters onto an optional accumulated value, failing if
any character is not a decimal digit. -/
def parseDigitsFrom (a : Option Nat) (l : List Char) : Option Nat :=
  l.foldl (fun acc c => acc.bind fun x => (digitVal? c).map fun d => 10 * x + d) a

/-- Python `int(s)` on a string of decimal digits: `none` (an exception) on
an empty string or any non-digit character.  (The source never applies
`int` to strings with surrounding whitespace or an explicit plus sign, so
those accepted Python forms are not modelled.) -/
def parseNatChars? (l : List Char) : Option Nat :=
  match l with
  | [] => none
  | _ :: _ => parseDigitsFrom (some 0) l

/-- Python `int(s)` including a possible leading minus sign. -/
def parseIntChars? (l : List Char) : Option Int :=
  if l.head? = some '-' then (parseNatChars? l.tail).map (fun n => -(n : Int))
  else (parseNatChars? l).map (fun n => (n : Int))

/-- Decimal digit characters of a positive natural number, most significant
first; `fuel` bounds the recursion (callers pass `n` itself). -/
def natCharsAux : Nat → Nat → List Char
  | 0, _ => []
  | _ + 1, 0 => []
  | fuel + 1, n + 1 =>
    natCharsAux fuel ((n + 1) / 10) ++ [Nat.digitChar ((n + 1) % 10)]

/-- Python `str(n)` for a natural number `n`. -/
def natChars (n : Nat) : List Char :=
  if n = 0 then ['0'] else natCharsAux n n

/-- Python `str(i)` for an integer `i`. -/
def intChars (i : Int) : List Char :=
  if i < 0 then '-' :: natChars i.natAbs else natChars i.natAbs

/-- Python `s.split(sep)` for a single-character separator `sep`: every
occurrence splits, empty fields are kept. -/
def splitOnSep (sep : Char) : List Char → List (List Char)
  | [] => [[]]
  | c :: rest =>
    match splitOnSep sep rest with
    | [] => [[]]
    | t :: ts => if c = sep then [] :: t :: ts else (c :: t) :: ts

/-! ## tile_matrix_limits.py -/

/-- `LKS_LVM_TILE_LIMITS`: per-zoom inclusive coverage windows
`(min_col, max_col, min_row, max_row)` for the Topo10DTM layer. -/
def LKS_LVM_TILE_LIMITS : List (Int × (Int × Int × Int × Int)) :=
  [(7, (19, 99, 1, 48)),
   (8, (28, 133, 2, 64)),
   (9, (42, 199, 3, 97)),
   (10, (56, 266, 4, 129)),
   (11, (84, 399, 6, 194)),
   (12, (168, 799, 13, 389)),
   (13, (420, 2000, 32, 974)),
   (14, (841, 4000, 65, 1948)),
   (15, (1121, 5333, 87, 2598)),
   (16, (1682, 8000, 131, 3897)),
   (17, (3364, 16000, 262, 7795)),
   (18, (8410, 40000, 655, 19488))]

/-- `is_tile_in_bounds(zoom_level, tile_col, tile_row)` from
tile_matrix_limits.py. -/
def is_tile_in_bounds (zoom_level tile_col tile_row : Int) : Bool :=
  match LKS_LVM_TILE_LIMITS.lookup zoom_level with
  | none => false
  | some (min_col, max_col, min_row, max_row) =>
    decide (min_col ≤ tile_col ∧ tile_col ≤ max_col ∧
            min_row ≤ tile_row ∧ tile_row ≤ max_row)

/-! ## wmts_capabilities.py: zoom extraction from a TileMatrix identifier -/

/-- The zoom level the parser assigns to a TileMatrix element:
`int(tile_matrix.identifier.split(':')[1])` (wmts_capabilities.py line 186).
`none` models the IndexError (fewer than two tokens) or ValueError
(non-numeric token) that the surrounding `try` turns into a failed parse. -/
def tile_matrix_zoom? (identifier : List Char) : Option Int :=
  ((splitOnSep ':' identifier).get? 1).bind parseIntChars?

/-- Follows the spec's words, for comparison with `tile_matrix_zoom?`:
"zoom level is the integer suffix of the matrix identifier after its last
colon". -/
def zoom_after_last_colon? (identifier : List Char) : Option Int :=
  parseIntChars? ((splitOnSep ':' identifier).getLastD [])

/-! ## wmts_capabilities.py: data model and parser

XML documents are modelled structurally: either malformed (ET.fromstring
raises) or a list of raw TileMatrixSet and Layer elements.  A raw field of
type `Option _` is `none` when the corresponding XML element is missing or
its text fails numeric conversion — both raise in Python and are caught by
the same handler, so they are observationally one failure. -/

/-- Parsed per-zoom matrix geometry (`TileMatrix` dataclass). -/
structure TileMatrix where
  identifier : List Char
  scale_denominator : ℚ
  top_left_corner : ℚ × ℚ
  tile_width : Int
  tile_height : Int
  matrix_width : Int
  matrix_height : Int
  deriving Repr, DecidableEq

/-- Parsed matrix set (`TileMatrixSet` dataclass); `tile_matrices` is the
Python dict zoom → TileMatrix in insertion order with key-uniqueness. -/
structure TileMatrixSet where
  identifier : List Char
  supported_crs : List Char
  epsg_code : Option Int
  well_known_scale_set : Option (List Char)
  tile_matrices : List (Int × TileMatrix)
  deriving Repr, DecidableEq

/-- Parsed layer info (`LayerInfo` dataclass; the link/format/style lists,
which nothing downstream of the transformer reads, are not modelled). -/
structure LayerInfo where
  identifier : List Char
  title : List Char
  wgs84_bounding_box : Option (ℚ × ℚ × ℚ × ℚ)
  deriving Repr, DecidableEq

/-- A raw `<TileMatrix>` element. -/
structure RawTileMatrix where
  identifier : Option (List Char)
  scale_denominator : Option ℚ
  top_left_corner : Option (ℚ × ℚ)
  tile_width : Option Int
  tile_height : Option Int
  matrix_width : Option Int
  matrix_height : Option Int
  deriving Repr, DecidableEq

/-- A raw `<TileMatrixSet>` element. -/
structure RawTileMatrixSet where
  identifier : Option (List Char)
  supported_crs : Option (List Char)
  well_known_scale_set : Option (List Char)
  matrices : List RawTileMatrix
  deriving Repr, DecidableEq

/-- A raw `<Layer>` element.  `wgs84_bounding_box` distinguishes an absent
element (`none`, no error) from a present element whose corner text fails
to parse (`some none`, an exception). -/
structure RawLayer where
  identifier : Option (List Char)
  title : Option (List Char)
  wgs84_bounding_box : Option (Option (ℚ × ℚ × ℚ × ℚ))
  deriving Repr, DecidableEq

/-- A GetCapabilities response body. -/
inductive CapabilitiesDoc where
  | malformed
  | doc (tile_matrix_sets : List RawTileMatrixSet) (layers : List RawLayer)
  deriving Repr, DecidableEq

/-- Python dict assignment `d[k] = v`: replace an existing binding in place,
otherwise append. -/
def dictInsert (l : List (Int × TileMatrix)) (k : Int) (v : TileMatrix) :
    List (Int × TileMatrix) :=
  if l.any (fun p => p.1 = k) then
    l.map (fun p => if p.1 = k then (k, v) else p)
  else l ++ [(k, v)]

/-- `_parse_tile_matrix_element`: all seven sub-elements must be present and
numeric, else the exception propagates (here: `none`). -/
def parse_tile_matrix_element (tm : RawTileMatrix) : Option TileMatrix := do
  let ident ← tm.identifier
  let sd ← tm.scale_denominator
  let tl ← tm.top_left_corner
  let w ← tm.tile_width
  let h ← tm.tile_height
  let mw ← tm.matrix_width
  let mh ← tm.matrix_height
  pure ⟨ident, sd, tl, w, h, mw, mh⟩

/-- The inner loop of the EPSG extraction in `_parse_tile_matrix_set_element`:
first integer-parseable token strictly after the current position. -/
def first_int_token (parts : List (List Char)) : Option Int :=
  (parts.filterMap parseIntChars?).head?

/-- The outer loop of the EPSG extraction: find the first token equal to
`EPSG` that has a successor, then take the first integer-parseable later
token; the loop breaks there whether or not one was found. -/
def scan_epsg : List (List Char) → Option Int
  | [] => none
  | p :: rest =>
    if p = chars ("EPSG") ∧ rest ≠ [] then first_int_token rest
    else scan_epsg rest

/-- EPSG-code extraction from a SupportedCRS string
(wmts_capabilities.py lines 154-175).  In the colon-free branch the Python
`crs.replace('EPSG:','')` is the identity (the pattern contains a colon),
leaving `int(crs)`. -/
def extract_epsg (supported_crs : List Char) : Option Int :=
  if (chars ("EPSG")) <:+: supported_crs then
    if ':' ∈ supported_crs then scan_epsg (splitOnSep ':' supported_crs)
    else parseIntChars? supported_crs
  else none

/-- `_parse_tile_matrix_set_element`: any failure while parsing a matrix
element or extracting its zoom level propagates (caught by the caller). -/
def parse_tile_matrix_set_element (raw : RawTileMatrixSet) :
    Option TileMatrixSet := do
  let ident ← raw.identifier
  let crs ← raw.supported_crs
  let epsg := extract_epsg crs
  let tms ← raw.matrices.foldlM (fun acc rawTm => do
    let tm ← parse_tile_matrix_element rawTm
    let zoom ← tile_matrix_zoom? tm.identifier
    pure (dictInsert acc zoom tm)) []
  pure ⟨ident, crs, epsg, raw.well_known_scale_set, tms⟩

/-- `parse_tile_matrix_set(capabilities_xml, tile_matrix_set_id)`: locate the
first matrix set whose identifier matches, parse it; any exception
(malformed XML included) is caught and becomes `none`. -/
def parse_tile_matrix_set (xml : CapabilitiesDoc) (tile_matrix_set_id : List Char) :
    Option TileMatrixSet :=
  match xml with
  | .malformed => none
  | .doc tmss _ =>
    match tmss.find? (fun raw => raw.identifier = some tile_matrix_set_id) with
    | some raw => parse_tile_matrix_set_element raw
    | none => none

/-- `_parse_layer_element`: title defaults to the identifier; a present but
unparseable bounding box raises (caught by the caller). -/
def parse_layer_element (raw : RawLayer) : Option LayerInfo := do
  let ident ← raw.identifier
  let title := raw.title.getD ident
  let bbox ← match raw.wgs84_bounding_box with
    | none => some none
    | some parsed => parsed.map some
  pure ⟨ident, title, bbox⟩

/-- `parse_layer_info(capabilities_xml, layer_id)`. -/
def parse_layer_info (xml : CapabilitiesDoc) (layer_id : List Char) :
    Option LayerInfo :=
  match xml with
  | .malformed => none
  | .doc _ layers =>
    match layers.find? (fun raw => raw.identifier = some layer_id) with
    | some raw => parse_layer_element raw
    | none => none

/-- Exceptions that can escape the modelled operations. -/
inductive PyErr where
  | transportError
  | httpStatusError (status : Nat)
  | keyError
  deriving Repr, DecidableEq

/-- The outcome of the HTTP GET inside `fetch_capabilities`: `none` is a
transport error. -/
structure HttpResponse where
  status : Nat
  body : CapabilitiesDoc
  deriving Repr, DecidableEq

/-- `fetch_capabilities`: `response.raise_for_status()` raises on any
non-2xx status; a transport error raises as well. -/
def fetch_capabilities (resp : Option HttpResponse) : Except PyErr CapabilitiesDoc :=
  match resp with
  | none => .error .transportError
  | some r =>
    if 200 ≤ r.status ∧ r.status < 300 then .ok r.body
    else .error (.httpStatusError r.status)

/-- `get_wmts_info(capabilities_url, layer_id, tile_matrix_set_id)`: fetch
once — with no exception handler around the fetch — then parse both.  (The
module-level cache only memoizes successful results and does not change the
returned values, so it is not modelled.) -/
def get_wmts_info (resp : Option HttpResponse) (layer_id tile_matrix_set_id : List Char) :
    Except PyErr (Option LayerInfo × Option TileMatrixSet) := do
  let xml ← fetch_capabilities resp
  pure (parse_layer_info xml layer_id, parse_tile_matrix_set xml tile_matrix_set_id)

/-! ## coordinate_systems.py -/

/-- `CoordinateSystemConfig` dataclass.  Decimal literals are exact, so the
static numeric fields are rationals. -/
structure CoordinateSystemConfig where
  name : List Char
  description : List Char
  bounds : ℚ × ℚ × ℚ × ℚ
  tile_matrix_prefix : List Char
  min_zoom : Int
  max_zoom : Int
  wmts_url : Option (List Char)
  tile_matrix_set_id : Option (List Char)
  layer_id : Option (List Char)
  epsg : Option Int
  origin : Option (ℚ × ℚ)
  tile_matrix_scales : Option (List (Int × ℚ))
  deriving Repr, DecidableEq

/-- `COORDINATE_SYSTEMS["LKS_LVM"]`. -/
def cfgLKS_LVM : CoordinateSystemConfig where
  name := chars ("LKS_LVM")
  description := chars ("Latvia TM coordinate system (dynamic from WMTS)")
  bounds := (25.1, 55.6, 32.3, 58.1)
  tile_matrix_prefix := chars ("LKS_LVM")
  min_zoom := 7
  max_zoom := 18
  wmts_url := some (chars ("https://lvmgeoproxy01.lvm.lv/wmts_b6948e305fb9446985a41b2aee54e07d/wmts"))
  tile_matrix_set_id := some (chars ("LKS_LVM"))
  layer_id := some (chars ("public:Topo10DTM"))
  epsg := some 3059
  origin := none
  tile_matrix_scales := none

/-- `COORDINATE_SYSTEMS["WebMercatorQuad"]`. -/
def cfgWebMercatorQuad : CoordinateSystemConfig where
  name := chars ("WebMercatorQuad")
  description := chars ("Web Mercator Quad (standard web mapping)")
  bounds := (20.0, 55.0, 29.0, 59.0)
  tile_matrix_prefix := chars ("")
  min_zoom := 1
  max_zoom := 18
  wmts_url := some (chars ("https://lvmgeoproxy01.lvm.lv/wmts_b6948e305fb9446985a41b2aee54e07d/wmts"))
  tile_matrix_set_id := some (chars ("WebMercatorQuad"))
  layer_id := some (chars ("public:Topo10DTM"))
  epsg := some 3857
  origin := none
  tile_matrix_scales := none

/-- `COORDINATE_SYSTEMS["EPSG:3857"]`. -/
def cfgEPSG3857 : CoordinateSystemConfig where
  name := chars ("Web Mercator")
  description := chars ("Web Mercator projection used by most web maps")
  bounds := (-180.0, -85.0511, 180.0, 85.0511)
  tile_matrix_prefix := chars ("EPSG:3857")
  min_zoom := 0
  max_zoom := 20
  wmts_url := none
  tile_matrix_set_id := none
  layer_id := none
  epsg := some 3857
  origin := some (-20037508.342789244, 20037508.342789244)
  tile_matrix_scales := none

/-- `COORDINATE_SYSTEMS["EPSG:4326"]`. -/
def cfgEPSG4326 : CoordinateSystemConfig where
  name := chars ("WGS84")
  description := chars ("WGS84 Geographic coordinate system")
  bounds := (-180.0, -90.0, 180.0, 90.0)
  tile_matrix_prefix := chars ("EPSG:4326")
  min_zoom := 0
  max_zoom := 20
  wmts_url := none
  tile_matrix_set_id := none
  layer_id := none
  epsg := some 4326
  origin := some (-180.0, 90.0)
  tile_matrix_scales := none

/-- `COORDINATE_SYSTEMS["EPSG:25832"]`. -/
def cfgEPSG25832 : CoordinateSystemConfig where
  name := chars ("ETRS89 / UTM zone 32N")
  description := chars ("European UTM zone 32N")
  bounds := (5.0, 47.0, 15.0, 55.0)
  tile_matrix_prefix := chars ("EPSG:25832")
  min_zoom := 0
  max_zoom := 20
  wmts_url := none
  tile_matrix_set_id := none
  layer_id := none
  epsg := some 25832
  origin := some (166021.44, 6500000.0)
  tile_matrix_scales := none

/-- The values of the `COORDINATE_SYSTEMS` registry. -/
def coordinate_system_configs : List CoordinateSystemConfig :=
  [cfgLKS_LVM, cfgWebMercatorQuad, cfgEPSG3857, cfgEPSG4326, cfgEPSG25832]

/-! ## coordinates.py -/

/-- `TileCoordinate` dataclass. -/
structure TileCoordinate where
  z : Int
  x : Int
  y : Int
  deriving Repr, DecidableEq

/-- `BoundingBox` dataclass (WGS84 degrees). -/
structure BoundingBox where
  min_lon : ℝ
  min_lat : ℝ
  max_lon : ℝ
  max_lat : ℝ

/-- `TransformedTileCoordinate` dataclass. -/
structure TransformedTileCoordinate where
  tile_matrix : List Char
  tile_col : Int
  tile_row : Int
  quadrant_x : Int
  quadrant_y : Int
  deriving Repr, DecidableEq

/-- The mutable per-transformer fields `transform_tile` can read or write.
`_initialize_crs` never raises (it ends in an unconditional emergency
fallback), so the resulting projection pair is modelled by the opaque
`proj` parameter of the operations rather than by state. -/
structure TransformerState where
  bounds : ℚ × ℚ × ℚ × ℚ
  tile_matrix_set : Option TileMatrixSet
  layer_info : Option LayerInfo
  deriving Repr, DecidableEq

/-- `CoordinateTransformer.__init__`: bounds copied from the configuration,
no capabilities loaded yet. -/
def initial_state (cfg : CoordinateSystemConfig) : TransformerState :=
  ⟨cfg.bounds, none, none⟩

/-- The state update of `load_wmts_parameters` once `get_wmts_info` has
returned: both results are assigned before the success check; on success,
bounds are updated from the layer (hard-coded actual coverage for LKS_LVM)
and the CRS transformers initialized (`_initialize_crs` never raises). -/
def apply_wmts_info (cfg : CoordinateSystemConfig) (st : TransformerState)
    (li : Option LayerInfo) (tms : Option TileMatrixSet) : TransformerState :=
  let st1 : TransformerState := { st with layer_info := li, tile_matrix_set := tms }
  match tms with
  | none => st1
  | some _ =>
    match li with
    | some l =>
      match l.wgs84_bounding_box with
      | some bb =>
        if cfg.name = chars ("LKS_LVM") then
          { st1 with bounds := (25.1, 55.6, 32.3, 58.1) }
        else
          { st1 with bounds := bb }
      | none => st1
    | none => st1

/-- `load_wmts_parameters`: fetch and parse on first use when the system has
a configured WMTS source and no matrix set is cached yet.  A fetch
exception propagates — there is no handler on this path. -/
def load_wmts_parameters (cfg : CoordinateSystemConfig) (resp : Option HttpResponse)
    (st : TransformerState) : Except PyErr TransformerState :=
  match cfg.wmts_url, cfg.tile_matrix_set_id, st.tile_matrix_set with
  | some _, some tmsId, none =>
    match get_wmts_info resp (cfg.layer_id.getD (chars ("unknown"))) tmsId with
    | .error e => .error e
    | .ok (li, tms) => .ok (apply_wmts_info cfg st li tms)
  | _, _, _ => .ok st

/-- `get_tile_matrix(zoom_level)`. -/
def get_tile_matrix (st : TransformerState) (zoom_level : Int) : Option TileMatrix :=
  match st.tile_matrix_set with
  | some s => s.tile_matrices.lookup zoom_level
  | none => none

/-- `tile_to_bbox_wgs84`: the standard slippy-map tile → WGS84 box formulas
(`math.degrees r = r * 180 / π`). -/
noncomputable def tile_to_bbox_wgs84 (tile : TileCoordinate) : BoundingBox :=
  let n : ℝ := (2 : ℝ) ^ tile.z
  let lon_min := (tile.x : ℝ) / n * 360 - 180
  let lon_max := ((tile.x : ℝ) + 1) / n * 360 - 180
  let lat_max := Real.arctan (Real.sinh (Real.pi * (1 - 2 * (tile.y : ℝ) / n))) * 180 / Real.pi
  let lat_min := Real.arctan (Real.sinh (Real.pi * (1 - 2 * ((tile.y : ℝ) + 1) / n))) * 180 / Real.pi
  ⟨lon_min, lat_min, lon_max, lat_max⟩

/-- Python `int(r)` on a float: truncation toward zero. -/
noncomputable def pytrunc (r : ℝ) : Int :=
  if 0 ≤ r then ⌊r⌋ else ⌈r⌉

/-- `_calculate_pixel_size(zoom_level)`. -/
noncomputable def calculate_pixel_size (zoom_level : Int) : ℝ :=
  156543.03392804062 / (2 : ℝ) ^ zoom_level

/-- The zoom clamping at the head of the transformed path
(coordinates.py lines 216-218). -/
def effective_zoom (cfg : CoordinateSystemConfig) (z : Int) : Int :=
  let zoom_level := min z cfg.max_zoom
  if zoom_level < cfg.min_zoom then cfg.min_zoom else zoom_level

/-- The scale-denominator lookup of the static fallback:
`tile_matrix_scales.get(zoom_level, tile_matrix_scales[10])`; a missing
default entry is a KeyError. -/
def lookup_scale (scales : List (Int × ℚ)) (zoom_level : Int) : Option ℚ :=
  match scales.lookup zoom_level with
  | some s => some s
  | none => scales.lookup 10

/-- Matrix-geometry resolution (coordinates.py lines 221-249): pixel size,
origin, and tile pixel dimensions, from the dynamic matrix if present, else
from the static fallback. -/
noncomputable def resolve_params (cfg : CoordinateSystemConfig) (st : TransformerState)
    (zoom_level : Int) : Except PyErr (ℝ × (ℝ × ℝ) × Int × Int) :=
  match get_tile_matrix st zoom_level with
  | some m =>
    .ok ((m.scale_denominator : ℝ) * 0.00028,
         ((m.top_left_corner.1 : ℝ), (m.top_left_corner.2 : ℝ)),
         m.tile_width, m.tile_height)
  | none =>
    let origin : ℝ × ℝ :=
      (((cfg.origin.getD (0, 0)).1 : ℝ), ((cfg.origin.getD (0, 0)).2 : ℝ))
    match cfg.tile_matrix_scales with
    | some scales =>
      match lookup_scale scales zoom_level with
      | some s => .ok ((s : ℝ) * 0.00028, origin, 512, 512)
      | none => .error .keyError
    | none => .ok (calculate_pixel_size zoom_level * 2, origin, 512, 512)

/-- The geometric body of the transformed path (coordinates.py lines
251-318): project the four corners of the tile's WGS84 box, take the
axis-aligned center, derive the upstream cell and quadrant.  Python `//`
is floor division and `int()` truncates toward zero; real division by zero
(a degenerate zero scale or sub-256 tile width, which no configuration
produces) yields 0 here where Python would raise. -/
noncomputable def compute_transformed (cfg : CoordinateSystemConfig)
    (proj : ℝ × ℝ → ℝ × ℝ) (tile : TileCoordinate) (zoom_level : Int)
    (wmts_pixel_size : ℝ) (origin : ℝ × ℝ) (wmts_tile_width wmts_tile_height : Int) :
    TransformedTileCoordinate :=
  let bbox := tile_to_bbox_wgs84 tile
  let pTL := proj (bbox.min_lon, bbox.max_lat)
  let pTR := proj (bbox.max_lon, bbox.max_lat)
  let pBL := proj (bbox.min_lon, bbox.min_lat)
  let pBR := proj (bbox.max_lon, bbox.min_lat)
  let min_x := min (min pTL.1 pTR.1) (min pBL.1 pBR.1)
  let max_x := max (max pTL.1 pTR.1) (max pBL.1 pBR.1)
  let min_y := min (min pTL.2 pTR.2) (min pBL.2 pBR.2)
  let max_y := max (max pTL.2 pTR.2) (max pBL.2 pBR.2)
  let center_x := (min_x + max_x) / 2
  let center_y := (min_y + max_y) / 2
  let wmts_tile_size_x := (wmts_tile_width : ℝ) * wmts_pixel_size
  let wmts_tile_size_y := (wmts_tile_height : ℝ) * wmts_pixel_size
  let wmts_tile_col := pytrunc ((center_x - origin.1) / wmts_tile_size_x)
  let wmts_tile_row := pytrunc ((origin.2 - center_y) / wmts_tile_size_y)
  let tiles_per_wmts_tile := Int.fdiv wmts_tile_width 256
  let wmts_tile_left := origin.1 + (wmts_tile_col : ℝ) * wmts_tile_size_x
  let wmts_tile_top := origin.2 - (wmts_tile_row : ℝ) * wmts_tile_size_y
  let relative_x := center_x - wmts_tile_left
  let relative_y := wmts_tile_top - center_y
  let leaflet_tile_size_x := wmts_tile_size_x / (tiles_per_wmts_tile : ℝ)
  let leaflet_tile_size_y := wmts_tile_size_y / (tiles_per_wmts_tile : ℝ)
  let quadrant_x := max 0 (min (tiles_per_wmts_tile - 1) (pytrunc (relative_x / leaflet_tile_size_x)))
  let quadrant_y := max 0 (min (tiles_per_wmts_tile - 1) (pytrunc (relative_y / leaflet_tile_size_y)))
  ⟨cfg.tile_matrix_prefix ++ ':' :: intChars zoom_level,
   wmts_tile_col, wmts_tile_row, quadrant_x, quadrant_y⟩

/-- The transformed (non-passthrough) path of `transform_tile` after the
capabilities-loading step. -/
noncomputable def transform_tile_loaded (cfg : CoordinateSystemConfig)
    (proj : ℝ × ℝ → ℝ × ℝ) (st : TransformerState) (tile : TileCoordinate) :
    Except PyErr TransformedTileCoordinate :=
  match resolve_params cfg st (effective_zoom cfg tile.z) with
  | .error e => .error e
  | .ok (pix, origin, w, h) =>
    .ok (compute_transformed cfg proj tile (effective_zoom cfg tile.z) pix origin w h)

/-- `transform_tile`: direct passthrough for WebMercatorQuad, otherwise load
WMTS parameters (a fetch exception propagates to the caller), ensure the
projection is initialized, and run the transformed path. -/
noncomputable def transform_tile (cfg : CoordinateSystemConfig)
    (proj : ℝ × ℝ → ℝ × ℝ) (resp : Option HttpResponse) (st : TransformerState)
    (tile : TileCoordinate) : Except PyErr TransformedTileCoordinate :=
  if cfg.name = chars ("WebMercatorQuad") then
    .ok ⟨intChars tile.z, tile.x, tile.y, 0, 0⟩
  else
    match load_wmts_parameters cfg resp st with
    | .error e => .error e
    | .ok st2 => transform_tile_loaded cfg proj st2 tile

/-- The zoom recovered from a tile-matrix identifier by the bounds checks in
`is_valid_tile` and `get_tile`: `int(tile_matrix.split(":")[1])`. -/
def recovered_zoom? (tile_matrix : List Char) : Option Int :=
  ((splitOnSep ':' tile_matrix).get? 1).bind parseIntChars?

/-- `is_valid_tile`: syntactic range check, then (for transformed systems)
transform and check the recovered zoom and cell against the limit table;
the bare `except` turns any exception into `False`. -/
noncomputable def is_valid_tile (cfg : CoordinateSystemConfig)
    (proj : ℝ × ℝ → ℝ × ℝ) (resp : Option HttpResponse) (st : TransformerState)
    (tile : TileCoordinate) : Bool :=
  if cfg.name = chars ("WebMercatorQuad") then
    if tile.z < 0 ∨ tile.z > 20 then false
    else if tile.x < 0 ∨ tile.x ≥ (2 : Int) ^ tile.z.toNat then false
    else if tile.y < 0 ∨ tile.y ≥ (2 : Int) ^ tile.z.toNat then false
    else true
  else
    if tile.z < 0 ∨ tile.z > 20 then false
    else if tile.x < 0 ∨ tile.x ≥ (2 : Int) ^ tile.z.toNat then false
    else if tile.y < 0 ∨ tile.y ≥ (2 : Int) ^ tile.z.toNat then false
    else
      match transform_tile cfg proj resp st tile with
      | .error _ => false
      | .ok transformed =>
        match recovered_zoom? transformed.tile_matrix with
        | none => false
        | some zoom_level =>
          is_tile_in_bounds zoom_level transformed.tile_col transformed.tile_row

/-! ## wmts_client.py: fetch_tile -/

/-- PIL resampling filters (only the one the source names is relevant). -/
inductive ResampleFilter where
  | nearest
  | bilinear
  | lanczos
  deriving Repr, DecidableEq

/-- The upstream GetTile HTTP response; `none` models a transport error. -/
structure TileResponse where
  status : Nat
  content_type : List Char
  content : List Nat
  deriving Repr, DecidableEq

/-- `WMTSClient.fetch_tile`, generic over the PIL image type and its
operations (`decode` = `Image.open`, failing with the exception the source
catches; `size`; `crop` on a left/top/right/bottom box; `resize`;
`encode_png` = `save(format='PNG')`).  The crop/resize/save calls are
library operations modelled as total, so the handler around the image
processing fires exactly on decode failure. -/
def fetch_tile {Image : Type} (decode : List Nat → Option Image)
    (size : Image → Int × Int) (crop : Image → Int × Int × Int × Int → Image)
    (resize : Image → Int × Int → ResampleFilter → Image)
    (encode_png : Image → List Nat) (tile_coord : TransformedTileCoordinate)
    (resp : Option TileResponse) : Option (List Nat) :=
  match resp with
  | none => none
  | some r =>
    if r.status = 200 then
      if (chars ("image")) <:+: r.content_type then
        match decode r.content with
        | none => some r.content
        | some image =>
          some (encode_png
            (if size image = (512, 512) then
              crop image (tile_coord.quadrant_x * 256, tile_coord.quadrant_y * 256,
                tile_coord.quadrant_x * 256 + 256, tile_coord.quadrant_y * 256 + 256)
            else if size image ≠ (256, 256) then
              resize image (256, 256) ResampleFilter.lanczos
            else image))
      else none
    else none

/-! ## app.py: the tile cache

The cache itself is `cachetools.TTLCache`, an external library.
Modelled from the spec: "memoizes final PNG bytes per (endpoint, z, x, y)
with TTL + capacity bound", "bounded capacity with least-recently-used
eviction and a fixed time-to-live per entry; entries older than the TTL
are treated as absent; clear() discards all entries". -/

/-- Modelled from the spec: a TTL + capacity bounded cache.  Entries carry
their store time; the entry list is kept most-recently-stored first. -/
structure TTLCacheModel (K V : Type) where
  maxsize : Nat
  ttl : Nat
  entries : List (K × V × Nat)

/-- Modelled from the spec: lookup at time `now`; an entry whose TTL has
elapsed is treated as absent. -/
def cache_get? {K V : Type} [DecidableEq K] (c : TTLCacheModel K V) (k : K)
    (now : Nat) : Option V :=
  match c.entries.find? (fun e => e.1 = k) with
  | some (_, v, t) => if now < t + c.ttl then some v else none
  | none => none

/-- Modelled from the spec: store at time `now`, replacing an existing entry
for the key and evicting least-recently-stored entries beyond capacity. -/
def cache_set {K V : Type} [DecidableEq K] (c : TTLCacheModel K V) (k : K)
    (v : V) (now : Nat) : TTLCacheModel K V :=
  { c with entries := ((k, v, now) :: c.entries.filter (fun e => e.1 ≠ k)).take c.maxsize }

/-- Modelled from the spec: `clear()` discards all entries. -/
def cache_clear {K V : Type} (c : TTLCacheModel K V) : TTLCacheModel K V :=
  { c with entries := [] }

/-- The client-facing cache key built by `get_tile`:
`f"{endpoint_name}-{z}-{x}-{y}"`. -/
def mk_cache_key (endpoint_name : List Char) (z x y : Int) : List Char :=
  endpoint_name ++ '-' :: intChars z ++ '-' :: intChars x ++ '-' :: intChars y

/-! ## Slippy-map tile index of a point

Modelled from the spec: the source has no point → tile-index function; the
spec's round-trip property ("recomputing the tile index from the bbox's
center at the same z") refers to the standard slippy-map index, the inverse
of the formulas of §4.1: `x = floor((lon+180)/360·n)`,
`y = floor((1 − asinh(tan(lat))/π)/2·n)` with `lat` in radians. -/
noncomputable def point_to_tile (lon lat : ℝ) (z : Nat) : Int × Int :=
  let n : ℝ := (2 : ℝ) ^ z
  (⌊(lon + 180) / 360 * n⌋,
   ⌊(1 - Real.arsinh (Real.tan (lat * Real.pi / 180)) / Real.pi) / 2 * n⌋)

/-- A transformer state whose matrix set is already cached (with no per-zoom
matrices), as after a successful parse of a capabilities document without
TileMatrix children; it exercises the loaded path without any fetch. -/
def stLKSLoaded : TransformerState :=
  { initial_state cfgLKS_LVM with
    tile_matrix_set :=
      some ⟨chars ("LKS_LVM"), chars ("urn:ogc:def:crs:EPSG:6.18:3:3059"),
            some 3059, none, []⟩ }

/-! ## Helper lemmas: decimal strings -/

theorem parseDigitsFrom_append (a : Option Nat) (l1 l2 : List Char) :
    parseDigitsFrom a (l1 ++ l2) = parseDigitsFrom (parseDigitsFrom a l1) l2 :=
  List.foldl_append ..

theorem digitVal_digitChar {d : Nat} (h : d < 10) :
    digitVal? (Nat.digitChar d) = some d := by
  interval_cases d <;> rfl

theorem digitChar_ne_of_lt {d : Nat} (h : d < 10) :
    Nat.digitChar d ≠ ':' ∧ Nat.digitChar d ≠ '-' := by
  interval_cases d <;> exact ⟨by decide, by decide⟩

theorem natCharsAux_mem {fuel n : Nat} {c : Char} (h : c ∈ natCharsAux fuel n) :
    ∃ d, d < 10 ∧ c = Nat.digitChar d := by
  induction fuel generalizing n with
  | zero => simp [natCharsAux] at h
  | succ fuel ih =>
    match n with
    | 0 => simp [natCharsAux] at h
    | n + 1 =>
      simp only [natCharsAux, List.mem_append, List.mem_singleton] at h
      rcases h with h | h
      · exact ih h
      · exact ⟨(n + 1) % 10, Nat.mod_lt _ (by omega), h⟩

theorem natCharsAux_parse (fuel : Nat) :
    ∀ n a, 0 < n → n ≤ fuel →
    ∃ k, 0 < k ∧ parseDigitsFrom (some a) (natCharsAux fuel n) = some (a * 10 ^ k + n) := by
  induction fuel with
  | zero => intro n a h1 h2; omega
  | succ fuel ih =>
    intro n a h1 h2
    match n, h1 with
    | n + 1, _ =>
      rw [show natCharsAux (fuel + 1) (n + 1) =
        natCharsAux fuel ((n + 1) / 10) ++ [Nat.digitChar ((n + 1) % 10)] from rfl,
        parseDigitsFrom_append]
      by_cases hq : (n + 1) / 10 = 0
      · have hlt : n + 1 < 10 := by omega
        have hm : (n + 1) % 10 = n + 1 := Nat.mod_eq_of_lt hlt
        rw [hq]
        refine ⟨1, one_pos, ?_⟩
        have hzero : parseDigitsFrom (some a) (natCharsAux fuel 0) = some a := by
          cases fuel <;> rfl
        rw [hzero]
        show (digitVal? (Nat.digitChar ((n + 1) % 10))).map (fun d => 10 * a + d) =
          some (a * 10 ^ 1 + (n + 1))
        rw [digitVal_digitChar (show (n + 1) % 10 < 10 by omega), hm]
        show some (10 * a + (n + 1)) = some (a * 10 ^ 1 + (n + 1))
        congr 1
        ring
      · have hle : (n + 1) / 10 ≤ fuel := by
          have := Nat.div_lt_self (Nat.succ_pos n) (by omega : 1 < 10)
          omega
        obtain ⟨k, hk, hparse⟩ := ih ((n + 1) / 10) a (Nat.pos_of_ne_zero hq) hle
        refine ⟨k + 1, by omega, ?_⟩
        rw [hparse]
        show (digitVal? (Nat.digitChar ((n + 1) % 10))).map
            (fun d => 10 * (a * 10 ^ k + (n + 1) / 10) + d) =
          some (a * 10 ^ (k + 1) + (n + 1))
        rw [digitVal_digitChar (show (n + 1) % 10 < 10 by omega)]
        show some (10 * (a * 10 ^ k + (n + 1) / 10) + (n + 1) % 10) =
          some (a * 10 ^ (k + 1) + (n + 1))
        congr 1
        have hdm : 10 * ((n + 1) / 10) + (n + 1) % 10 = n + 1 := Nat.div_add_mod (n + 1) 10
        calc 10 * (a * 10 ^ k + (n + 1) / 10) + (n + 1) % 10
            = a * 10 ^ (k + 1) + (10 * ((n + 1) / 10) + (n + 1) % 10) := by ring
          _ = a * 10 ^ (k + 1) + (n + 1) := by rw [hdm]

theorem natChars_mem {n : Nat} {c : Char} (h : c ∈ natChars n) :
    ∃ d, d < 10 ∧ c = Nat.digitChar d := by
  unfold natChars at h
  by_cases h0 : n = 0
  · rw [if_pos h0] at h
    simp at h
    exact ⟨0, by omega, h⟩
  · rw [if_neg h0] at h
    exact natCharsAux_mem h

theorem colon_not_mem_natChars (n : Nat) : ':' ∉ natChars n := by
  intro h
  obtain ⟨d, hd, he⟩ := natChars_mem h
  exact (digitChar_ne_of_lt hd).1 he.symm

theorem natChars_head_ne_neg (n : Nat) : (natChars n).head? ≠ some '-' := by
  intro h
  have hm : '-' ∈ natChars n := by
    cases he : natChars n with
    | nil => rw [he] at h; simp at h
    | cons c t =>
      rw [he] at h
      simp at h
      rw [h]
      exact List.mem_cons_self _ _
  obtain ⟨d, hd, he⟩ := natChars_mem hm
  exact (digitChar_ne_of_lt hd).2 he.symm

theorem parseNat_natChars (n : Nat) : parseNatChars? (natChars n) = some n := by
  unfold natChars
  by_cases h0 : n = 0
  · rw [if_pos h0, h0]; rfl
  · rw [if_neg h0]
    obtain ⟨k, _, hparse⟩ := natCharsAux_parse n n 0 (Nat.pos_of_ne_zero h0) le_rfl
    cases he : natCharsAux n n with
    | nil =>
      exfalso
      rw [he] at hparse
      have : (some 0 : Option Nat) = some (0 * 10 ^ k + n) := hparse
      simp at this
      omega
    | cons c t =>
      show parseDigitsFrom (some 0) (c :: t) = some n
      rw [← he, hparse]
      simp

theorem parseInt_intChars_of_nonneg {i : Int} (h : 0 ≤ i) :
    parseIntChars? (intChars i) = some i := by
  unfold intChars
  rw [if_neg (by omega : ¬ i < 0)]
  unfold parseIntChars?
  rw [if_neg (natChars_head_ne_neg i.natAbs), parseNat_natChars]
  simp [Int.natAbs_of_nonneg h]

/-! ## Helper lemmas: splitting on a separator -/

theorem splitOnSep_ne_nil (sep : Char) (l : List Char) : splitOnSep sep l ≠ [] := by
  cases l with
  | nil => simp [splitOnSep]
  | cons c rest =>
    unfold splitOnSep
    cases h : splitOnSep sep rest with
    | nil => simp
    | cons t ts => by_cases hc : c = sep <;> simp [hc]

theorem splitOnSep_no_sep {sep : Char} {l : List Char} (h : sep ∉ l) :
    splitOnSep sep l = [l] := by
  induction l with
  | nil => rfl
  | cons c rest ih =>
    have hc : c ≠ sep := fun he => h (he ▸ List.mem_cons_self _ _)
    have hrest : sep ∉ rest := fun hm => h (List.mem_cons_of_mem _ hm)
    unfold splitOnSep
    rw [ih hrest]
    simp [hc]

theorem splitOnSep_cons_eq (sep c : Char) (rest : List Char) :
    ∃ t ts, splitOnSep sep rest = t :: ts ∧
      splitOnSep sep (c :: rest) = if c = sep then [] :: t :: ts else (c :: t) :: ts := by
  cases he : splitOnSep sep rest with
  | nil => exact absurd he (splitOnSep_ne_nil sep rest)
  | cons t ts =>
    refine ⟨t, ts, rfl, ?_⟩
    unfold splitOnSep
    rw [he]

theorem splitOnSep_append_sep {sep : Char} {p : List Char} (h : sep ∉ p)
    (rest : List Char) :
    splitOnSep sep (p ++ sep :: rest) = p :: splitOnSep sep rest := by
  induction p with
  | nil =>
    obtain ⟨t, ts, he, hc⟩ := splitOnSep_cons_eq sep sep rest
    simp only [List.nil_append]
    rw [hc, if_pos rfl, he]
  | cons c p' ih =>
    have hcne : c ≠ sep := fun he => h (he ▸ List.mem_cons_self _ _)
    have hp' : sep ∉ p' := fun hm => h (List.mem_cons_of_mem _ hm)
    obtain ⟨t, ts, he, hc⟩ := splitOnSep_cons_eq sep c (p' ++ sep :: rest)
    have h2 := he.symm.trans (ih hp')
    injection h2 with ht hts
    rw [List.cons_append, hc, if_neg hcne, ht, hts]

theorem recovered_zoom_colon_free {p : List Char} (hp : ':' ∉ p) {z : Int}
    (hz : 0 ≤ z) : recovered_zoom? (p ++ ':' :: intChars z) = some z := by
  unfold recovered_zoom?
  have hzc : ':' ∉ intChars z := by
    unfold intChars
    rw [if_neg (by omega : ¬ z < 0)]
    exact colon_not_mem_natChars z.natAbs
  rw [splitOnSep_append_sep hp, splitOnSep_no_sep hzc]
  simp [parseInt_intChars_of_nonneg hz]

theorem recovered_zoom_colon_prefix {p q : List Char} (hp : ':' ∉ p)
    (hq : ':' ∉ q) (rest : List Char) :
    recovered_zoom? ((p ++ ':' :: q) ++ ':' :: rest) = parseIntChars? q := by
  unfold recovered_zoom?
  rw [List.append_assoc, List.cons_append, splitOnSep_append_sep hp,
    splitOnSep_append_sep hq]
  rfl

/-! ## Helper lemmas: the transformer -/

theorem effective_zoom_eq_clamp (cfg : CoordinateSystemConfig) (z : Int) :
    effective_zoom cfg z = max cfg.min_zoom (min z cfg.max_zoom) := by
  unfold effective_zoom
  rcases le_or_lt cfg.min_zoom (min z cfg.max_zoom) with h | h
  · rw [if_neg (by omega), max_eq_right h]
  · rw [if_pos h, max_eq_left (le_of_lt h)]

theorem min_zoom_le_effective_zoom (cfg : CoordinateSystemConfig) (z : Int) :
    cfg.min_zoom ≤ effective_zoom cfg z := by
  rw [effective_zoom_eq_clamp]
  exact le_max_left _ _

theorem transform_tile_matrix_eq {cfg : CoordinateSystemConfig}
    {proj : ℝ × ℝ → ℝ × ℝ} {resp : Option HttpResponse} {st : TransformerState}
    {tile : TileCoordinate} {t : TransformedTileCoordinate}
    (hn : cfg.name ≠ chars ("WebMercatorQuad"))
    (h : transform_tile cfg proj resp st tile = .ok t) :
    t.tile_matrix = cfg.tile_matrix_prefix ++ ':' :: intChars (effective_zoom cfg tile.z) := by
  unfold transform_tile at h
  rw [if_neg hn] at h
  split at h
  · cases h
  · rename_i st2 hld
    unfold transform_tile_loaded at h
    split at h
    · cases h
    · cases h
      rfl

theorem resolve_params_ok_of_no_scales {cfg : CoordinateSystemConfig}
    (hs : cfg.tile_matrix_scales = none) (st : TransformerState) (zoom : Int) :
    ∃ params, resolve_params cfg st zoom = .ok params := by
  unfold resolve_params
  cases hm : get_tile_matrix st zoom with
  | some m => exact ⟨_, rfl⟩
  | none => rw [hs]; exact ⟨_, rfl⟩

theorem transform_tile_loaded_ok_of_no_scales {cfg : CoordinateSystemConfig}
    (hs : cfg.tile_matrix_scales = none) (proj : ℝ × ℝ → ℝ × ℝ)
    (st : TransformerState) (tile : TileCoordinate) :
    ∃ t, transform_tile_loaded cfg proj st tile = .ok t := by
  unfold transform_tile_loaded
  obtain ⟨⟨pix, origin, w, hgt⟩, hp⟩ :=
    resolve_params_ok_of_no_scales hs st (effective_zoom cfg tile.z)
  rw [hp]
  exact ⟨_, rfl⟩

theorem get_wmts_info_of_fetch_ok {resp : Option HttpResponse}
    {xml : CapabilitiesDoc} (hf : fetch_capabilities resp = .ok xml)
    (layer_id tmsId : List Char) :
    get_wmts_info resp layer_id tmsId =
      .ok (parse_layer_info xml layer_id, parse_tile_matrix_set xml tmsId) := by
  unfold get_wmts_info
  rw [hf]
  rfl

theorem load_wmts_parameters_no_url {cfg : CoordinateSystemConfig}
    (hu : cfg.wmts_url = none) (resp : Option HttpResponse) (st : TransformerState) :
    load_wmts_parameters cfg resp st = .ok st := by
  unfold load_wmts_parameters
  rw [hu]

theorem load_wmts_parameters_already_loaded {cfg : CoordinateSystemConfig}
    {st : TransformerState} {s : TileMatrixSet} (hl : st.tile_matrix_set = some s)
    (resp : Option HttpResponse) :
    load_wmts_parameters cfg resp st = .ok st := by
  unfold load_wmts_parameters
  rw [hl]
  cases cfg.wmts_url <;> cases cfg.tile_matrix_set_id <;> rfl

theorem load_wmts_parameters_of_fetch_ok {cfg : CoordinateSystemConfig}
    {resp : Option HttpResponse} {xml : CapabilitiesDoc}
    (hf : fetch_capabilities resp = .ok xml) (st : TransformerState) :
    ∃ st2, load_wmts_parameters cfg resp st = .ok st2 := by
  unfold load_wmts_parameters
  cases cfg.wmts_url with
  | none => exact ⟨st, rfl⟩
  | some url =>
    cases cfg.tile_matrix_set_id with
    | none => exact ⟨st, rfl⟩
    | some tmsId =>
      cases hl : st.tile_matrix_set with
      | some s => exact ⟨st, rfl⟩
      | none =>
        show ∃ st2,
          (match get_wmts_info resp (cfg.layer_id.getD (chars ("unknown"))) tmsId with
            | Except.error e => Except.error e
            | Except.ok (li, tms) => Except.ok (apply_wmts_info cfg st li tms)) =
          Except.ok st2
        rw [get_wmts_info_of_fetch_ok hf]
        exact ⟨_, rfl⟩

theorem transform_tile_ok_of_static {cfg : CoordinateSystemConfig}
    (hn : cfg.name ≠ chars ("WebMercatorQuad")) (hu : cfg.wmts_url = none)
    (hs : cfg.tile_matrix_scales = none) (proj : ℝ × ℝ → ℝ × ℝ)
    (resp : Option HttpResponse) (st : TransformerState) (tile : TileCoordinate) :
    ∃ t, transform_tile cfg proj resp st tile = .ok t := by
  unfold transform_tile
  rw [if_neg hn, load_wmts_parameters_no_url hu]
  exact transform_tile_loaded_ok_of_no_scales hs proj st tile

/-! ## C5: the tile-matrix-limit table -/

/-- C5: `is_tile_in_bounds` returns false for every zoom level absent from
the static limit table, and otherwise returns true exactly when the column
and row both lie in the inclusive windows; concretely
`is_tile_in_bounds 10 56 4 = true`, `is_tile_in_bounds 10 55 4 = false`,
and `is_tile_in_bounds 6 c r = false` for every `c` and `r`. -/
theorem c5_tile_limits_window :
    (∀ zoom col row, LKS_LVM_TILE_LIMITS.lookup zoom = none →
      is_tile_in_bounds zoom col row = false) ∧
    (∀ zoom col row min_col max_col min_row max_row,
      LKS_LVM_TILE_LIMITS.lookup zoom = some (min_col, max_col, min_row, max_row) →
      (is_tile_in_bounds zoom col row = true ↔
        (min_col ≤ col ∧ col ≤ max_col ∧ min_row ≤ row ∧ row ≤ max_row))) ∧
    is_tile_in_bounds 10 56 4 = true ∧
    is_tile_in_bounds 10 55 4 = false ∧
    (∀ col row, is_tile_in_bounds 6 col row = false) := by
  refine ⟨?_, ?_, by decide, by decide, ?_⟩
  · intro zoom col row h
    unfold is_tile_in_bounds
    rw [h]
  · intro zoom col row mc xc mr xr h
    unfold is_tile_in_bounds
    rw [h]
    simp
  · intro col row
    unfold is_tile_in_bounds
    rw [show LKS_LVM_TILE_LIMITS.lookup 6 = none from rfl]

/-- C5 witness: the window test at zoom 10 evaluated through the table
lookup. -/
theorem c5_tile_limits_window_witness : is_tile_in_bounds 10 260 100 = true :=
  (c5_tile_limits_window.2.1 10 260 100 56 266 4 129 rfl).mpr (by decide)

/-! ## C6: zoom extraction from a TileMatrix identifier -/

/-- C6 counterexample: for the identifier `EPSG:3857:10`, which has several
colons, the parser assigns zoom 3857 (the token after the FIRST colon),
not 10 (the integer suffix after the last colon) as the claim states. -/
theorem c6_zoom_suffix_counterexample :
    tile_matrix_zoom? (chars ("EPSG:3857:10")) = some 3857 ∧
    zoom_after_last_colon? (chars ("EPSG:3857:10")) = some 10 ∧
    (3857 : Int) ≠ 10 := by
  refine ⟨by decide, by decide, by decide⟩

/-- C6 amended: the zoom level assigned to a TileMatrix element is the
integer value of the token after the FIRST colon of its identifier
(`split(':')[1]`); this coincides with the integer suffix after the last
colon exactly for identifiers containing a single colon (such as
`LKS_LVM:10`). -/
theorem c6_zoom_first_colon (identifier : List Char)
    (h : (splitOnSep ':' identifier).length = 2) :
    tile_matrix_zoom? identifier = zoom_after_last_colon? identifier := by
  obtain ⟨a, b, hab⟩ := List.length_eq_two.mp h
  unfold tile_matrix_zoom? zoom_after_last_colon?
  rw [hab]
  rfl

/-- C6 witness: a single-colon identifier where both readings agree. -/
theorem c6_zoom_first_colon_witness :
    tile_matrix_zoom? (chars ("LKS_LVM:10")) =
      zoom_after_last_colon? (chars ("LKS_LVM:10")) :=
  c6_zoom_first_colon (chars ("LKS_LVM:10")) (by decide)

/-! ## C2: WebMercatorQuad passthrough -/

/-- C2: for the WebMercatorQuad target system and every tile `(z, x, y)`,
`transform_tile` returns exactly tile_matrix = decimal string of `z`,
tile_col = `x`, tile_row = `y`, quadrant `(0, 0)` — for every projection,
every capabilities-fetch outcome and every transformer state, i.e. with no
projection call and no capabilities lookup. -/
theorem c2_passthrough_identity (proj : ℝ × ℝ → ℝ × ℝ)
    (resp : Option HttpResponse) (st : TransformerState) (tile : TileCoordinate) :
    transform_tile cfgWebMercatorQuad proj resp st tile =
      .ok ⟨intChars tile.z, tile.x, tile.y, 0, 0⟩ := by
  unfold transform_tile
  rw [if_pos (show cfgWebMercatorQuad.name = chars ("WebMercatorQuad") from rfl)]

/-! ## C3: zoom clamping -/

/-- C3: for every non-passthrough target system and every requested tile,
the effective zoom used by `transform_tile` — and embedded in the emitted
tile_matrix string — equals the requested `z` clamped into
`[min_zoom, max_zoom]`; in particular with min_zoom = 7 and max_zoom = 18
(the LKS_LVM system), z = 5 resolves to 7 and z = 20 resolves to 18. -/
theorem c3_zoom_clamp :
    (∀ (cfg : CoordinateSystemConfig) (z : Int),
      effective_zoom cfg z = max cfg.min_zoom (min z cfg.max_zoom)) ∧
    (∀ (cfg : CoordinateSystemConfig) (proj : ℝ × ℝ → ℝ × ℝ)
      (resp : Option HttpResponse) (st : TransformerState)
      (tile : TileCoordinate) (t : TransformedTileCoordinate),
      cfg.name ≠ chars ("WebMercatorQuad") →
      transform_tile cfg proj resp st tile = .ok t →
      t.tile_matrix = cfg.tile_matrix_prefix ++
        ':' :: intChars (max cfg.min_zoom (min tile.z cfg.max_zoom))) ∧
    effective_zoom cfgLKS_LVM 5 = 7 ∧ effective_zoom cfgLKS_LVM 20 = 18 := by
  refine ⟨effective_zoom_eq_clamp, ?_, by decide, by decide⟩
  intro cfg proj resp st tile t hn h
  rw [← effective_zoom_eq_clamp]
  exact transform_tile_matrix_eq hn h

/-- C3 witness: a concrete non-passthrough transformation whose emitted
tile-matrix string carries the clamped zoom. -/
theorem c3_zoom_clamp_witness :
    ∃ t, transform_tile cfgEPSG3857 (fun p => p) none (initial_state cfgEPSG3857)
        ⟨5, 1, 2⟩ = .ok t ∧
      t.tile_matrix = cfgEPSG3857.tile_matrix_prefix ++
        ':' :: intChars (max cfgEPSG3857.min_zoom (min 5 cfgEPSG3857.max_zoom)) := by
  obtain ⟨t, ht⟩ := @transform_tile_ok_of_static cfgEPSG3857 (by decide) rfl rfl
    (fun p => p) none (initial_state cfgEPSG3857) ⟨5, 1, 2⟩
  exact ⟨t, ht, c3_zoom_clamp.2.1 cfgEPSG3857 (fun p => p) none
    (initial_state cfgEPSG3857) ⟨5, 1, 2⟩ t (by decide) ht⟩

/-! ## C1: capabilities-fetch failure handling -/

/-- C1 counterexample: for the LKS_LVM target system (which has a
configured WMTS source), a transport error — and likewise a non-2xx
status — raised by the capabilities fetch is NOT absorbed inside the
capabilities-loading step: it propagates out of `transform_tile` to its
caller. -/
theorem c1_fetch_error_counterexample :
    transform_tile cfgLKS_LVM (fun p => p) none (initial_state cfgLKS_LVM)
      ⟨10, 580, 316⟩ = .error PyErr.transportError ∧
    transform_tile cfgLKS_LVM (fun p => p) (some ⟨503, CapabilitiesDoc.doc [] []⟩)
      (initial_state cfgLKS_LVM) ⟨10, 580, 316⟩ =
      .error (PyErr.httpStatusError 503) := by
  constructor <;> rfl

/-- C1 amended: a PARSE failure (the fetch returned 2xx but the XML is
malformed) is absorbed inside the capabilities-loading step — the parse
yields no matrix set and `transform_tile` completes using the static
fallback parameters, emitting the normal tile-matrix string; but a
transport error or non-2xx status raised by the fetch itself is not caught
in `get_wmts_info` or `load_wmts_parameters` and propagates out of
`transform_tile` (the request path only absorbs it indirectly, through the
bare `except` of `is_valid_tile` and the generic handler of `get_tile`). -/
theorem c1_parse_failure_absorbed (r : HttpResponse) (h2a : 200 ≤ r.status)
    (h2b : r.status < 300) (hm : r.body = CapabilitiesDoc.malformed)
    (proj : ℝ × ℝ → ℝ × ℝ) (tile : TileCoordinate) :
    parse_tile_matrix_set r.body (chars ("LKS_LVM")) = none ∧
    ∃ t, transform_tile cfgLKS_LVM proj (some r) (initial_state cfgLKS_LVM) tile = .ok t ∧
      t.tile_matrix = cfgLKS_LVM.tile_matrix_prefix ++
        ':' :: intChars (effective_zoom cfgLKS_LVM tile.z) := by
  have hf : fetch_capabilities (some r) = .ok r.body := by
    show (if 200 ≤ r.status ∧ r.status < 300 then Except.ok r.body
          else Except.error (PyErr.httpStatusError r.status)) = Except.ok r.body
    rw [if_pos (And.intro h2a h2b)]
  constructor
  · rw [hm]; rfl
  · obtain ⟨st2, hld⟩ := load_wmts_parameters_of_fetch_ok hf (initial_state cfgLKS_LVM)
    obtain ⟨t, htl⟩ := @transform_tile_loaded_ok_of_no_scales cfgLKS_LVM rfl proj st2 tile
    have htt : transform_tile cfgLKS_LVM proj (some r) (initial_state cfgLKS_LVM) tile = .ok t := by
      unfold transform_tile
      rw [if_neg (show cfgLKS_LVM.name ≠ chars ("WebMercatorQuad") by decide), hld]
      exact htl
    exact ⟨t, htt, transform_tile_matrix_eq (by decide) htt⟩

/-- C1 witness: the amended statement at a concrete 200/malformed response
and a concrete tile. -/
theorem c1_parse_failure_absorbed_witness :
    parse_tile_matrix_set (CapabilitiesDoc.malformed) (chars ("LKS_LVM")) = none ∧
    ∃ t, transform_tile cfgLKS_LVM (fun p => p)
        (some ⟨200, CapabilitiesDoc.malformed⟩) (initial_state cfgLKS_LVM)
        ⟨10, 580, 316⟩ = .ok t ∧
      t.tile_matrix = cfgLKS_LVM.tile_matrix_prefix ++
        ':' :: intChars (effective_zoom cfgLKS_LVM 10) :=
  c1_parse_failure_absorbed ⟨200, CapabilitiesDoc.malformed⟩ (by decide) (by decide)
    rfl (fun p => p) ⟨10, 580, 316⟩

/-! ## C7: zoom recovery from the tile-matrix string -/

/-- C7 counterexample: for the Web Mercator system whose tile_matrix_prefix
is `EPSG:3857` (which itself contains a colon), splitting the emitted
tile_matrix string on ':' and taking the second token recovers 3857 — the
second component of the prefix — and not the resolved zoom 10. -/
theorem c7_recovered_zoom_counterexample :
    ∃ t, transform_tile cfgEPSG3857 (fun p => p) none (initial_state cfgEPSG3857)
        ⟨10, 5, 5⟩ = .ok t ∧
      recovered_zoom? t.tile_matrix = some 3857 ∧
      effective_zoom cfgEPSG3857 10 = 10 ∧ (3857 : Int) ≠ 10 := by
  obtain ⟨t, ht⟩ := @transform_tile_ok_of_static cfgEPSG3857 (by decide) rfl rfl
    (fun p => p) none (initial_state cfgEPSG3857) ⟨10, 5, 5⟩
  have hmx := transform_tile_matrix_eq (show cfgEPSG3857.name ≠ chars ("WebMercatorQuad") by decide) ht
  refine ⟨t, ht, ?_, by decide, by decide⟩
  rw [hmx,
    show cfgEPSG3857.tile_matrix_prefix = chars ("EPSG") ++ ':' :: chars ("3857") by decide,
    recovered_zoom_colon_prefix (by decide) (by decide)]
  decide

/-- C7 amended: for every non-passthrough system whose tile_matrix_prefix
contains no colon (such as LKS_LVM) and whose minimum zoom is
non-negative, the zoom recovered by splitting `transform_tile`'s
tile_matrix string on ':' and taking the second token equals the resolved
(clamped) zoom; when the prefix itself contains a colon (such as
`EPSG:3857`) the recovered token is part of the prefix instead. -/
theorem c7_recovered_zoom_colon_free (cfg : CoordinateSystemConfig)
    (proj : ℝ × ℝ → ℝ × ℝ) (resp : Option HttpResponse) (st : TransformerState)
    (tile : TileCoordinate) (t : TransformedTileCoordinate)
    (hn : cfg.name ≠ chars ("WebMercatorQuad"))
    (hp : ':' ∉ cfg.tile_matrix_prefix) (hz : 0 ≤ cfg.min_zoom)
    (h : transform_tile cfg proj resp st tile = .ok t) :
    recovered_zoom? t.tile_matrix = some (effective_zoom cfg tile.z) := by
  rw [transform_tile_matrix_eq hn h]
  exact recovered_zoom_colon_free hp
    (le_trans hz (min_zoom_le_effective_zoom cfg tile.z))

/-- C7 witness: the amended statement on the LKS_LVM system at a concrete
tile, via a state with an already-cached (empty) matrix set. -/
theorem c7_recovered_zoom_colon_free_witness :
    ∃ t, transform_tile cfgLKS_LVM (fun p => p) none stLKSLoaded ⟨10, 580, 316⟩ = .ok t ∧
      recovered_zoom? t.tile_matrix = some (effective_zoom cfgLKS_LVM 10) := by
  have hld : load_wmts_parameters cfgLKS_LVM none stLKSLoaded = .ok stLKSLoaded :=
    load_wmts_parameters_already_loaded rfl none
  obtain ⟨t, htl⟩ := @transform_tile_loaded_ok_of_no_scales cfgLKS_LVM rfl
    (fun p => p) stLKSLoaded ⟨10, 580, 316⟩
  have htt : transform_tile cfgLKS_LVM (fun p => p) none stLKSLoaded ⟨10, 580, 316⟩ = .ok t := by
    unfold transform_tile
    rw [if_neg (show cfgLKS_LVM.name ≠ chars ("WebMercatorQuad") by decide), hld]
    exact htl
  exact ⟨t, htt, c7_recovered_zoom_colon_free cfgLKS_LVM (fun p => p) none
    stLKSLoaded ⟨10, 580, 316⟩ t (by decide) (by decide) (by decide) htt⟩

/-! ## C4: is_valid_tile -/

theorem is_tile_in_bounds_of_lookup_none {z : Int}
    (h : LKS_LVM_TILE_LIMITS.lookup z = none) (col row : Int) :
    is_tile_in_bounds z col row = false := by
  unfold is_tile_in_bounds
  rw [h]

/-- C4: `is_valid_tile` returns false on every syntactically invalid tile
(z outside [0, 20] or x, y outside [0, 2^z)); for the passthrough system
the syntactic check alone decides validity; for every configured
non-passthrough system it returns true only if the transformed tile lands
inside the tile-matrix-limit window for its resolved zoom; and an
exception during transformation, or a failed zoom parse during the bounds
check, yields false. -/
theorem c4_is_valid_tile_safety :
    (∀ (cfg : CoordinateSystemConfig) (proj : ℝ × ℝ → ℝ × ℝ)
      (resp : Option HttpResponse) (st : TransformerState) (tile : TileCoordinate),
      (tile.z < 0 ∨ tile.z > 20 ∨ tile.x < 0 ∨ tile.x ≥ (2 : Int) ^ tile.z.toNat ∨
        tile.y < 0 ∨ tile.y ≥ (2 : Int) ^ tile.z.toNat) →
      is_valid_tile cfg proj resp st tile = false) ∧
    (∀ (proj : ℝ × ℝ → ℝ × ℝ) (resp : Option HttpResponse)
      (st : TransformerState) (tile : TileCoordinate),
      is_valid_tile cfgWebMercatorQuad proj resp st tile = true ↔
        (0 ≤ tile.z ∧ tile.z ≤ 20 ∧ 0 ≤ tile.x ∧ tile.x < (2 : Int) ^ tile.z.toNat ∧
          0 ≤ tile.y ∧ tile.y < (2 : Int) ^ tile.z.toNat)) ∧
    (∀ cfg, cfg ∈ coordinate_system_configs →
      cfg.name ≠ chars ("WebMercatorQuad") →
      ∀ (proj : ℝ × ℝ → ℝ × ℝ) (resp : Option HttpResponse)
        (st : TransformerState) (tile : TileCoordinate),
      is_valid_tile cfg proj resp st tile = true →
      ∃ t, transform_tile cfg proj resp st tile = .ok t ∧
        is_tile_in_bounds (effective_zoom cfg tile.z) t.tile_col t.tile_row = true) ∧
    (∀ (cfg : CoordinateSystemConfig) (proj : ℝ × ℝ → ℝ × ℝ)
      (resp : Option HttpResponse) (st : TransformerState) (tile : TileCoordinate)
      (e : PyErr), cfg.name ≠ chars ("WebMercatorQuad") →
      transform_tile cfg proj resp st tile = .error e →
      is_valid_tile cfg proj resp st tile = false) ∧
    (∀ (cfg : CoordinateSystemConfig) (proj : ℝ × ℝ → ℝ × ℝ)
      (resp : Option HttpResponse) (st : TransformerState) (tile : TileCoordinate)
      (t : TransformedTileCoordinate), cfg.name ≠ chars ("WebMercatorQuad") →
      transform_tile cfg proj resp st tile = .ok t →
      recovered_zoom? t.tile_matrix = none →
      is_valid_tile cfg proj resp st tile = false) := by
  refine ⟨?_, ?_, ?_, ?_, ?_⟩
  · -- (a) syntactic rejection, any system
    intro cfg proj resp st tile hbad
    have key : ∀ tail : Bool,
        (if tile.z < 0 ∨ tile.z > 20 then false
         else if tile.x < 0 ∨ tile.x ≥ (2 : Int) ^ tile.z.toNat then false
         else if tile.y < 0 ∨ tile.y ≥ (2 : Int) ^ tile.z.toNat then false
         else tail) = false := by
      intro tail
      by_cases h1 : tile.z < 0 ∨ tile.z > 20
      · rw [if_pos h1]
      · by_cases h2 : tile.x < 0 ∨ tile.x ≥ (2 : Int) ^ tile.z.toNat
        · rw [if_neg h1, if_pos h2]
        · by_cases h3 : tile.y < 0 ∨ tile.y ≥ (2 : Int) ^ tile.z.toNat
          · rw [if_neg h1, if_neg h2, if_pos h3]
          · exfalso
            rcases hbad with h | h | h | h | h | h
            · exact h1 (Or.inl h)
            · exact h1 (Or.inr h)
            · exact h2 (Or.inl h)
            · exact h2 (Or.inr h)
            · exact h3 (Or.inl h)
            · exact h3 (Or.inr h)
    unfold is_valid_tile
    by_cases hn : cfg.name = chars ("WebMercatorQuad")
    · rw [if_pos hn]; exact key true
    · rw [if_neg hn]; exact key _
  · -- (b) passthrough: the syntactic check decides
    intro proj resp st tile
    unfold is_valid_tile
    rw [if_pos (show cfgWebMercatorQuad.name = chars ("WebMercatorQuad") from rfl)]
    constructor
    · intro h
      by_cases h1 : tile.z < 0 ∨ tile.z > 20
      · rw [if_pos h1] at h; simp at h
      · rw [if_neg h1] at h
        by_cases h2 : tile.x < 0 ∨ tile.x ≥ (2 : Int) ^ tile.z.toNat
        · rw [if_pos h2] at h; simp at h
        · rw [if_neg h2] at h
          by_cases h3 : tile.y < 0 ∨ tile.y ≥ (2 : Int) ^ tile.z.toNat
          · rw [if_pos h3] at h; simp at h
          · push_neg at h1 h2 h3
            exact ⟨h1.1, h1.2, h2.1, h2.2, h3.1, h3.2⟩
    · rintro ⟨ha, hb, hc, hd, he', hf⟩
      rw [if_neg (by push_neg; exact ⟨ha, hb⟩),
        if_neg (by push_neg; exact ⟨hc, hd⟩),
        if_neg (by push_neg; exact ⟨he', hf⟩)]
  · -- (c) configured transformed systems: true only inside the window at
    -- the resolved zoom
    intro cfg hmem hn proj resp st tile h
    unfold is_valid_tile at h
    rw [if_neg hn] at h
    by_cases h1 : tile.z < 0 ∨ tile.z > 20
    · rw [if_pos h1] at h; simp at h
    · rw [if_neg h1] at h
      by_cases h2 : tile.x < 0 ∨ tile.x ≥ (2 : Int) ^ tile.z.toNat
      · rw [if_pos h2] at h; simp at h
      · rw [if_neg h2] at h
        by_cases h3 : tile.y < 0 ∨ tile.y ≥ (2 : Int) ^ tile.z.toNat
        · rw [if_pos h3] at h; simp at h
        · rw [if_neg h3] at h
          split at h
          · simp at h
          · rename_i transformed heq
            split at h
            · simp at h
            · rename_i zl hrec
              simp only [coordinate_system_configs, List.mem_cons,
                List.mem_singleton, List.not_mem_nil, or_false] at hmem
              have hmx := transform_tile_matrix_eq hn heq
              rcases hmem with hc | hc | hc | hc | hc <;> subst hc
              · -- LKS_LVM: colon-free prefix, recovered zoom = resolved zoom
                rw [hmx, recovered_zoom_colon_free (by decide)
                  (le_trans (show (0 : Int) ≤ cfgLKS_LVM.min_zoom by decide)
                    (min_zoom_le_effective_zoom cfgLKS_LVM tile.z))] at hrec
                injection hrec with hzl
                rw [← hzl] at h
                exact ⟨transformed, heq, h⟩
              · exact absurd rfl hn
              · -- EPSG:3857: recovered token is 3857, never in the table
                exfalso
                rw [hmx, show cfgEPSG3857.tile_matrix_prefix =
                    chars ("EPSG") ++ ':' :: chars ("3857") by decide,
                  recovered_zoom_colon_prefix (by decide) (by decide),
                  show parseIntChars? (chars ("3857")) = some 3857 by decide] at hrec
                injection hrec with hzl
                rw [← hzl, is_tile_in_bounds_of_lookup_none (by decide)] at h
                simp at h
              · -- EPSG:4326
                exfalso
                rw [hmx, show cfgEPSG4326.tile_matrix_prefix =
                    chars ("EPSG") ++ ':' :: chars ("4326") by decide,
                  recovered_zoom_colon_prefix (by decide) (by decide),
                  show parseIntChars? (chars ("4326")) = some 4326 by decide] at hrec
                injection hrec with hzl
                rw [← hzl, is_tile_in_bounds_of_lookup_none (by decide)] at h
                simp at h
              · -- EPSG:25832
                exfalso
                rw [hmx, show cfgEPSG25832.tile_matrix_prefix =
                    chars ("EPSG") ++ ':' :: chars ("25832") by decide,
                  recovered_zoom_colon_prefix (by decide) (by decide),
                  show parseIntChars? (chars ("25832")) = some 25832 by decide] at hrec
                injection hrec with hzl
                rw [← hzl, is_tile_in_bounds_of_lookup_none (by decide)] at h
                simp at h
  · -- (d) a transformation exception yields false
    intro cfg proj resp st tile e hn herr
    unfold is_valid_tile
    rw [if_neg hn]
    by_cases h1 : tile.z < 0 ∨ tile.z > 20
    · rw [if_pos h1]
    · rw [if_neg h1]
      by_cases h2 : tile.x < 0 ∨ tile.x ≥ (2 : Int) ^ tile.z.toNat
      · rw [if_pos h2]
      · rw [if_neg h2]
        by_cases h3 : tile.y < 0 ∨ tile.y ≥ (2 : Int) ^ tile.z.toNat
        · rw [if_pos h3]
        · rw [if_neg h3, herr]
  · -- (e) an unparseable tile-matrix zoom yields false
    intro cfg proj resp st tile t hn hok hrec
    unfold is_valid_tile
    rw [if_neg hn]
    by_cases h1 : tile.z < 0 ∨ tile.z > 20
    · rw [if_pos h1]
    · rw [if_neg h1]
      by_cases h2 : tile.x < 0 ∨ tile.x ≥ (2 : Int) ^ tile.z.toNat
      · rw [if_pos h2]
      · rw [if_neg h2]
        by_cases h3 : tile.y < 0 ∨ tile.y ≥ (2 : Int) ^ tile.z.toNat
        · rw [if_pos h3]
        · rw [if_neg h3, hok]
          show (match recovered_zoom? t.tile_matrix with
                | none => false
                | some zoom_level =>
                  is_tile_in_bounds zoom_level t.tile_col t.tile_row) = false
          rw [hrec]

/-- C4 witness: the syntactic rejection applied at a concrete invalid tile
of the passthrough system. -/
theorem c4_is_valid_tile_safety_witness :
    is_valid_tile cfgWebMercatorQuad (fun p => p) none
      (initial_state cfgWebMercatorQuad) ⟨-1, 0, 0⟩ = false :=
  c4_is_valid_tile_safety.1 cfgWebMercatorQuad (fun p => p) none
    (initial_state cfgWebMercatorQuad) ⟨-1, 0, 0⟩ (Or.inl (by decide))

/-! ## C8: image normalization in fetch_tile -/

/-- C8: for a 200 response with an image content type — a 512×512 decoded
image produces the 256×256 crop at pixel offset
`(quadrant_x·256, quadrant_y·256)`; any other size except 256×256 is
resized to 256×256 with the Lanczos filter; a 256×256 image passes through
unchanged; the result is re-encoded as PNG in all three cases; and a
decode failure returns the original response bytes unmodified. -/
theorem c8_fetch_tile_normalization (Image : Type)
    (decode : List Nat → Option Image) (size : Image → Int × Int)
    (crop : Image → Int × Int × Int × Int → Image)
    (resize : Image → Int × Int → ResampleFilter → Image)
    (encode_png : Image → List Nat) (tile_coord : TransformedTileCoordinate)
    (r : TileResponse) (hst : r.status = 200)
    (hct : (chars ("image")) <:+: r.content_type) :
    (∀ img, decode r.content = some img → size img = (512, 512) →
      fetch_tile decode size crop resize encode_png tile_coord (some r) =
        some (encode_png (crop img
          (tile_coord.quadrant_x * 256, tile_coord.quadrant_y * 256,
           tile_coord.quadrant_x * 256 + 256, tile_coord.quadrant_y * 256 + 256)))) ∧
    (∀ img, decode r.content = some img → size img ≠ (512, 512) →
      size img ≠ (256, 256) →
      fetch_tile decode size crop resize encode_png tile_coord (some r) =
        some (encode_png (resize img (256, 256) ResampleFilter.lanczos))) ∧
    (∀ img, decode r.content = some img → size img = (256, 256) →
      fetch_tile decode size crop resize encode_png tile_coord (some r) =
        some (encode_png img)) ∧
    (decode r.content = none →
      fetch_tile decode size crop resize encode_png tile_coord (some r) =
        some r.content) := by
  have hbase : ∀ res : Option (List Nat),
      (match decode r.content with
        | none => some r.content
        | some image =>
          some (encode_png
            (if size image = (512, 512) then
              crop image (tile_coord.quadrant_x * 256, tile_coord.quadrant_y * 256,
                tile_coord.quadrant_x * 256 + 256, tile_coord.quadrant_y * 256 + 256)
            else if size image ≠ (256, 256) then
              resize image (256, 256) ResampleFilter.lanczos
            else image))) = res →
      fetch_tile decode size crop resize encode_png tile_coord (some r) = res := by
    intro res hres
    show (if r.status = 200 then
        if (chars ("image")) <:+: r.content_type then
          (match decode r.content with
            | none => some r.content
            | some image =>
              some (encode_png
                (if size image = (512, 512) then
                  crop image (tile_coord.quadrant_x * 256, tile_coord.quadrant_y * 256,
                    tile_coord.quadrant_x * 256 + 256, tile_coord.quadrant_y * 256 + 256)
                else if size image ≠ (256, 256) then
                  resize image (256, 256) ResampleFilter.lanczos
                else image))
          : Option (List Nat))
        else none
      else none) = res
    rw [if_pos hst, if_pos hct, hres]
  refine ⟨?_, ?_, ?_, ?_⟩
  · intro img hdec hsz
    refine hbase _ ?_
    rw [hdec]
    show some (encode_png (if size img = (512, 512) then _ else _)) = _
    rw [if_pos hsz]
  · intro img hdec hsz1 hsz2
    refine hbase _ ?_
    rw [hdec]
    show some (encode_png (if size img = (512, 512) then _ else _)) = _
    rw [if_neg hsz1, if_pos hsz2]
  · intro img hdec hsz
    refine hbase _ ?_
    rw [hdec]
    show some (encode_png (if size img = (512, 512) then _ else _)) = _
    rw [if_neg (show ¬ size img = (512, 512) by rw [hsz]; decide),
      if_neg (show ¬ size img ≠ (256, 256) by rw [hsz]; simp)]
  · intro hdec
    refine hbase _ ?_
    rw [hdec]

/-- C8 witness: the 512×512 crop case on a toy image type. -/
theorem c8_fetch_tile_normalization_witness :
    fetch_tile (fun _ => some (0 : Nat)) (fun _ => ((512 : Int), (512 : Int)))
      (fun _ _ => 1) (fun _ _ _ => 2) (fun i => [i + 7]) ⟨[], 0, 0, 1, 1⟩
      (some ⟨200, chars ("image/png"), [9]⟩) = some [8] :=
  (c8_fetch_tile_normalization Nat (fun _ => some 0) (fun _ => (512, 512))
    (fun _ _ => 1) (fun _ _ _ => 2) (fun i => [i + 7]) ⟨[], 0, 0, 1, 1⟩
    ⟨200, chars ("image/png"), [9]⟩ rfl (by decide)).1 0 rfl rfl

/-! ## C10: the tile cache -/

/-- C10: after storing PNG bytes `B` under the client-facing key
`(endpoint, z, x, y)`, an immediate lookup of the same key returns exactly
`B`; after the entry's TTL has elapsed, or after the explicit cache clear,
the key is absent.  (Requires a positive capacity and TTL; the deployed
configuration uses 1000 and 3600.) -/
theorem c10_cache_roundtrip (endpoint : List Char) (z x y : Int) (B : List Nat)
    (c : TTLCacheModel (List Char) (List Nat)) (now : Nat)
    (hcap : 1 ≤ c.maxsize) (httl : 0 < c.ttl) :
    cache_get? (cache_set c (mk_cache_key endpoint z x y) B now)
      (mk_cache_key endpoint z x y) now = some B ∧
    (∀ later, now + c.ttl ≤ later →
      cache_get? (cache_set c (mk_cache_key endpoint z x y) B now)
        (mk_cache_key endpoint z x y) later = none) ∧
    cache_get? (cache_clear (cache_set c (mk_cache_key endpoint z x y) B now))
      (mk_cache_key endpoint z x y) now = none := by
  obtain ⟨m, hm⟩ : ∃ m, c.maxsize = m + 1 := ⟨c.maxsize - 1, by omega⟩
  have hset : (cache_set c (mk_cache_key endpoint z x y) B now).entries =
      (mk_cache_key endpoint z x y, B, now) ::
        ((c.entries.filter (fun e => e.1 ≠ mk_cache_key endpoint z x y)).take m) := by
    show ((mk_cache_key endpoint z x y, B, now) ::
        c.entries.filter (fun e => e.1 ≠ mk_cache_key endpoint z x y)).take c.maxsize = _
    rw [hm, List.take_succ_cons]
  have hfind : ((cache_set c (mk_cache_key endpoint z x y) B now).entries.find?
      (fun e => e.1 = mk_cache_key endpoint z x y)) =
      some (mk_cache_key endpoint z x y, B, now) := by
    rw [hset]
    exact List.find?_cons_of_pos _ (by simp)
  have httlc : (cache_set c (mk_cache_key endpoint z x y) B now).ttl = c.ttl := rfl
  refine ⟨?_, ?_, ?_⟩
  · unfold cache_get?
    rw [hfind]
    show (if now < now + (cache_set c (mk_cache_key endpoint z x y) B now).ttl
      then some B else none) = some B
    rw [httlc, if_pos (by omega)]
  · intro later hlater
    unfold cache_get?
    rw [hfind]
    show (if later < now + (cache_set c (mk_cache_key endpoint z x y) B now).ttl
      then some B else none) = none
    rw [httlc, if_neg (by omega)]
  · rfl

/-- C10 witness: the spec's concrete example key with the deployed cache
parameters. -/
theorem c10_cache_roundtrip_witness :
    cache_get? (cache_set ⟨1000, 3600, []⟩
        (mk_cache_key (chars ("latvia")) 10 580 316) [1, 2, 3] 0)
      (mk_cache_key (chars ("latvia")) 10 580 316) 0 = some [1, 2, 3] :=
  (c10_cache_roundtrip (chars ("latvia")) 10 580 316 [1, 2, 3]
    ⟨1000, 3600, []⟩ 0 (by decide) (by decide)).1

/-! ## C9: tile → bbox → center → tile round trip -/

/-- C9: for every z in [0, 20] and every x, y in [0, 2^z), computing the
WGS84 bounding box of tile (z, x, y) via `tile_to_bbox_wgs84` and then
recomputing the slippy-map tile index from the box's center point at the
same zoom recovers exactly the original (x, y). -/
theorem c9_bbox_center_roundtrip (z : Nat) (hz : z ≤ 20) (x y : Int)
    (hx0 : 0 ≤ x) (hx1 : x < (2 : Int) ^ z) (hy0 : 0 ≤ y) (hy1 : y < (2 : Int) ^ z) :
    point_to_tile
      (((tile_to_bbox_wgs84 ⟨(z : Int), x, y⟩).min_lon +
        (tile_to_bbox_wgs84 ⟨(z : Int), x, y⟩).max_lon) / 2)
      (((tile_to_bbox_wgs84 ⟨(z : Int), x, y⟩).min_lat +
        (tile_to_bbox_wgs84 ⟨(z : Int), x, y⟩).max_lat) / 2) z = (x, y) := by
  have hN : (0 : ℝ) < (2 : ℝ) ^ z := pow_pos two_pos z
  have hminlon : (tile_to_bbox_wgs84 ⟨(z : Int), x, y⟩).min_lon =
      (x : ℝ) / (2 : ℝ) ^ ((z : Nat) : Int) * 360 - 180 := rfl
  have hmaxlon : (tile_to_bbox_wgs84 ⟨(z : Int), x, y⟩).max_lon =
      ((x : ℝ) + 1) / (2 : ℝ) ^ ((z : Nat) : Int) * 360 - 180 := rfl
  have hminlat : (tile_to_bbox_wgs84 ⟨(z : Int), x, y⟩).min_lat =
      Real.arctan (Real.sinh (Real.pi *
        (1 - 2 * ((y : ℝ) + 1) / (2 : ℝ) ^ ((z : Nat) : Int)))) * 180 / Real.pi := rfl
  have hmaxlat : (tile_to_bbox_wgs84 ⟨(z : Int), x, y⟩).max_lat =
      Real.arctan (Real.sinh (Real.pi *
        (1 - 2 * (y : ℝ) / (2 : ℝ) ^ ((z : Nat) : Int)))) * 180 / Real.pi := rfl
  simp only [zpow_natCast] at hminlon hmaxlon hminlat hmaxlat
  have hx_eq : (((tile_to_bbox_wgs84 ⟨(z : Int), x, y⟩).min_lon +
      (tile_to_bbox_wgs84 ⟨(z : Int), x, y⟩).max_lon) / 2 + 180) / 360 * (2 : ℝ) ^ z =
      (x : ℝ) + 1 / 2 := by
    rw [hminlon, hmaxlon]
    field_simp
    ring
  have hphi_eq : ((tile_to_bbox_wgs84 ⟨(z : Int), x, y⟩).min_lat +
      (tile_to_bbox_wgs84 ⟨(z : Int), x, y⟩).max_lat) / 2 * Real.pi / 180 =
      (Real.arctan (Real.sinh (Real.pi * (1 - 2 * (y : ℝ) / (2 : ℝ) ^ z))) +
       Real.arctan (Real.sinh (Real.pi * (1 - 2 * ((y : ℝ) + 1) / (2 : ℝ) ^ z)))) / 2 := by
    rw [hminlat, hmaxlat]
    field_simp
    ring
  show (⌊(((tile_to_bbox_wgs84 ⟨(z : Int), x, y⟩).min_lon +
          (tile_to_bbox_wgs84 ⟨(z : Int), x, y⟩).max_lon) / 2 + 180) / 360 *
          (2 : ℝ) ^ z⌋,
        ⌊(1 - Real.arsinh (Real.tan (((tile_to_bbox_wgs84 ⟨(z : Int), x, y⟩).min_lat +
          (tile_to_bbox_wgs84 ⟨(z : Int), x, y⟩).max_lat) / 2 * Real.pi / 180)) /
          Real.pi) / 2 * (2 : ℝ) ^ z⌋) = (x, y)
  rw [Prod.mk.injEq]
  constructor
  · rw [hx_eq]
    exact Int.floor_eq_iff.mpr ⟨by linarith, by linarith⟩
  · rw [hphi_eq]
    set N := (2 : ℝ) ^ z with hNdef
    set A := Real.arctan (Real.sinh (Real.pi * (1 - 2 * (y : ℝ) / N))) with hAdef
    set B := Real.arctan (Real.sinh (Real.pi * (1 - 2 * ((y : ℝ) + 1) / N))) with hBdef
    set t := Real.arsinh (Real.tan ((A + B) / 2)) with htdef
    have hab : Real.pi * (1 - 2 * ((y : ℝ) + 1) / N) <
        Real.pi * (1 - 2 * (y : ℝ) / N) := by
      have h2 : 2 * (y : ℝ) / N < 2 * ((y : ℝ) + 1) / N :=
        (div_lt_div_iff_of_pos_right hN).mpr (by linarith)
      exact mul_lt_mul_of_pos_left (by linarith) Real.pi_pos
    have hBA : B < A := Real.arctan_strictMono (Real.sinh_lt_sinh.mpr hab)
    have hBlow : -(Real.pi / 2) < B := Real.neg_pi_div_two_lt_arctan _
    have hAhigh : A < Real.pi / 2 := Real.arctan_lt_pi_div_two _
    have htB : Real.sinh (Real.pi * (1 - 2 * ((y : ℝ) + 1) / N)) <
        Real.tan ((A + B) / 2) := by
      have := Real.tan_lt_tan_of_lt_of_lt_pi_div_two hBlow
        (by linarith : (A + B) / 2 < Real.pi / 2) (by linarith)
      rwa [hBdef, Real.tan_arctan] at this
    have htA : Real.tan ((A + B) / 2) <
        Real.sinh (Real.pi * (1 - 2 * (y : ℝ) / N)) := by
      have := Real.tan_lt_tan_of_lt_of_lt_pi_div_two
        (by linarith : -(Real.pi / 2) < (A + B) / 2) hAhigh (by linarith)
      rwa [hAdef, Real.tan_arctan] at this
    have htb : Real.pi * (1 - 2 * ((y : ℝ) + 1) / N) < t := by
      have := Real.arsinh_lt_arsinh.mpr htB
      rwa [Real.arsinh_sinh] at this
    have hta : t < Real.pi * (1 - 2 * (y : ℝ) / N) := by
      have := Real.arsinh_lt_arsinh.mpr htA
      rwa [Real.arsinh_sinh] at this
    have h1 : t / Real.pi < 1 - 2 * (y : ℝ) / N := by
      rw [div_lt_iff₀ Real.pi_pos, mul_comm]
      exact hta
    have h2 : 1 - 2 * ((y : ℝ) + 1) / N < t / Real.pi := by
      rw [lt_div_iff₀ Real.pi_pos, mul_comm]
      exact htb
    have h3 : 2 * (y : ℝ) / N < 1 - t / Real.pi := by linarith
    have h4 : 1 - t / Real.pi < 2 * ((y : ℝ) + 1) / N := by linarith
    have h5 : 2 * (y : ℝ) < (1 - t / Real.pi) * N := (div_lt_iff₀ hN).mp h3
    have h6 : (1 - t / Real.pi) * N < 2 * ((y : ℝ) + 1) := (lt_div_iff₀ hN).mp h4
    have h7 : (1 - t / Real.pi) / 2 * N = (1 - t / Real.pi) * N / 2 := by ring
    refine Int.floor_eq_iff.mpr ⟨?_, ?_⟩
    · rw [h7]; linarith
    · rw [h7]; linarith

/-- C9 witness: the round trip at the concrete tile (3, 5, 2). -/
theorem c9_bbox_center_roundtrip_witness :
    point_to_tile
      (((tile_to_bbox_wgs84 ⟨3, 5, 2⟩).min_lon +
        (tile_to_bbox_wgs84 ⟨3, 5, 2⟩).max_lon) / 2)
      (((tile_to_bbox_wgs84 ⟨3, 5, 2⟩).min_lat +
        (tile_to_bbox_wgs84 ⟨3, 5, 2⟩).max_lat) / 2) 3 = (5, 2) :=
  c9_bbox_center_roundtrip 3 (by decide) 5 2 (by decide) (by decide)
    (by decide) (by decide)

end MapMap
